import Mathlib

/-!
Shallow embedding of the rust-flights library (flight-search request encoder
and Google-Flights HTML response decoder), together with proofs of the
specification claims about it.

Sources embedded:
  * `src/lib.rs`      — `TimeWindow`, `Passengers`, domain enums, `Flight`.
  * `src/protobuf.rs` — passenger expansion, `build_flight_info`, wire message.
  * `src/client.rs`   — `FlightResponseParser`: flight extraction, price,
                        stops, itinerary-URL and layover parsing.

Strings are modelled by Lean `String`; all character work happens on
`String.data` (`List Char`).  Digits are modelled as ASCII digits, which is
what every input in the specification uses.
-/

namespace RustFlights

/-- Splitting a character list at every character satisfying `p`, keeping
empty pieces, exactly as Rust's `str::split` does (`"".split` gives one
empty piece, a separator at either end gives an empty piece there). -/
def splitP (p : Char → Bool) : List Char → List (List Char)
  | [] => [[]]
  | c :: cs =>
    if p c then [] :: splitP p cs
    else
      match splitP p cs with
      | [] => [[c]]
      | piece :: rest => (c :: piece) :: rest

/-- Rust `str::split` on a single separator character, as `String`s. -/
def splitChar (sep : Char) (s : String) : List String :=
  (splitP (fun c => c = sep) s.data).map String.mk

/-- Rust `char::is_whitespace` restricted to the ASCII range used here. -/
def isWs (c : Char) : Bool := c.isWhitespace

/-- Rust `str::trim`: drop whitespace from both ends. -/
def trimS (s : String) : String :=
  String.mk (((s.data.dropWhile isWs).reverse.dropWhile isWs).reverse)

/-- The whitespace-separated tokens of a string (Rust `split_whitespace`:
empty tokens are skipped). -/
def wsTokens (s : String) : List String :=
  ((splitP isWs s.data).filter (fun piece => ¬ piece.isEmpty)).map String.mk

/-- Rust `s.split_whitespace().collect::<Vec<_>>().join(" ")`: collapse whitespace
runs to single spaces and drop leading/trailing whitespace. -/
def normWs (s : String) : String :=
  String.intercalate " " (wsTokens s)

/-- Digits of a decimal numeral, most significant first, folded to a `Nat`. -/
def digitsToNat (ds : List Char) : Nat :=
  ds.foldl (fun acc c => acc * 10 + (c.toNat - '0'.toNat)) 0

/-- Rust `str::parse::<i32>()`: an optional sign, then one or more ASCII
digits, nothing else, and the value must fit in an `i32`. -/
def parseI32 (s : String) : Option Int :=
  let core : List Char → Bool → Option Int := fun ds neg =>
    if ds.isEmpty ∨ ¬ ds.all Char.isDigit then none
    else
      let n := digitsToNat ds
      if neg then if n ≤ 2147483648 then some (-(n : Int)) else none
      else if n ≤ 2147483647 then some (n : Int) else none
  match s.data with
  | '+' :: ds => core ds false
  | '-' :: ds => core ds true
  | ds => core ds false

/-- Errors of the library (`FlightError` in `src/lib.rs`); only the variants
the embedded code can produce are modelled. -/
inductive FlightError where
  | parseError (msg : String)
  | timeParseError (msg : String)
  deriving DecidableEq, Repr

/-- Struct `TimeWindow` (`src/lib.rs`): an hour range filter. -/
structure TimeWindow where
  earliest_hour : Int
  latest_hour : Int
  deriving DecidableEq, Repr

/-- Constructor `TimeWindow::new` (`src/lib.rs:54`): validates both hours into [0,23]. -/
def TimeWindow.new (earliest_hour latest_hour : Int) :
    Except FlightError TimeWindow :=
  if earliest_hour < 0 ∨ earliest_hour > 23 then
    .error (.timeParseError
      ("earliest_hour must be 0-23, got " ++ toString earliest_hour))
  else if latest_hour < 0 ∨ latest_hour > 23 then
    .error (.timeParseError
      ("latest_hour must be 0-23, got " ++ toString latest_hour))
  else
    .ok { earliest_hour := earliest_hour, latest_hour := latest_hour }

/-- Helper `TimeWindow::parse_hour` (`src/lib.rs:87`): the text before the first
`:` parsed as an `i32`. -/
def TimeWindow.parse_hour (time_str : String) : Except FlightError Int :=
  let hour_str := (splitChar ':' time_str).headD ""
  match parseI32 hour_str with
  | some h => .ok h
  | none => .error (.timeParseError ("Invalid hour format: " ++ time_str))

/-- Parser `TimeWindow::from_range_str` (`src/lib.rs:73`): split on `-`, demand
exactly two parts, parse each hour, delegate to `TimeWindow.new`. -/
def TimeWindow.from_range_str (range : String) : Except FlightError TimeWindow :=
  let parts := splitChar '-' range
  if parts.length ≠ 2 then
    .error (.timeParseError
      ("Time range must be in format HH:MM-HH:MM, got " ++ range))
  else do
    let earliest_hour ← TimeWindow.parse_hour (parts.headD "")
    let latest_hour ← TimeWindow.parse_hour ((parts.drop 1).headD "")
    TimeWindow.new earliest_hour latest_hour

deriving instance DecidableEq for Except

/-- Struct `Passengers` (`src/lib.rs:120`): four `i32` counts. -/
structure Passengers where
  adults : Int
  children : Int
  infants_in_seat : Int
  infants_on_lap : Int
  deriving DecidableEq, Repr

/-- The per-unit passenger enum of the wire schema.  Modelled from the spec:
`flights.proto` is not part of the sources; the variants and their integer
values (Adult=1, Child=2, InfantInSeat=3, InfantOnLap=4) are those the
repository's tests assert for the generated `Passenger` enum. -/
inductive Passenger where
  | adult
  | child
  | infantInSeat
  | infantOnLap
  deriving DecidableEq, Repr

/-- Wire value of a `Passenger` (`Passenger as i32`). -/
def Passenger.toInt : Passenger → Int
  | .adult => 1
  | .child => 2
  | .infantInSeat => 3
  | .infantOnLap => 4

/-- The conversion `impl From<Passengers> for Vec<Passenger>` (`src/protobuf.rs:34`): each
category count `n` drives a `for _ in 0..n` loop pushing that category's
enum value, in the order adults, children, infants-in-seat, infants-on-lap.
A Rust range `0..n` over a negative `n` is empty, hence `Int.toNat`. -/
def passengersToVec (p : Passengers) : List Passenger :=
  List.replicate p.adults.toNat .adult
    ++ List.replicate p.children.toNat .child
    ++ List.replicate p.infants_in_seat.toNat .infantInSeat
    ++ List.replicate p.infants_on_lap.toNat .infantOnLap

/-- Enum `SeatClass` (`src/lib.rs:191`). -/
inductive SeatClass where
  | economy
  | premiumEconomy
  | business
  | first
  deriving DecidableEq, Repr

/-- Enum `TripType` (`src/lib.rs:170`). -/
inductive TripType where
  | roundTrip
  | oneWay
  | multiCity
  deriving DecidableEq, Repr

/-- Wire value of the seat enum.  Modelled from the spec: `flights.proto`
is missing; Economy=1 is asserted by the repository's tests and the other
classes follow in declaration order. -/
def seatToInt : SeatClass → Int
  | .economy => 1
  | .premiumEconomy => 2
  | .business => 3
  | .first => 4

/-- Wire value of the trip enum.  Modelled from the spec: `flights.proto`
is missing; OneWay=2 is asserted by the repository's tests and the other
trips follow in declaration order. -/
def tripToInt : TripType → Int
  | .roundTrip => 1
  | .oneWay => 2
  | .multiCity => 3

/-- Struct `FlightData` (`src/lib.rs:99`): one query leg of the domain model. -/
structure FlightData where
  date : String
  from_airport : String
  to_airport : String
  max_stops : Option Int
  airlines : Option (List String)
  departure_time : Option TimeWindow
  arrival_time : Option TimeWindow
  deriving DecidableEq, Repr

/-- Wire `Airport` sub-message: one string field. -/
structure Airport where
  airport : String
  deriving DecidableEq, Repr

/-- Wire `SelectedFlightData` sub-message (itinerary-link variant). -/
structure SelectedFlightData where
  from_airport : String
  departure_date : String
  to_airport : String
  airline_code : String
  flight_number : String
  deriving DecidableEq, Repr

/-- Wire `FlightData` sub-message: one leg of the wire message, with the
optional filter fields of the schema (spec §3). -/
structure WireFlightData where
  date : String
  from_flight : Option Airport
  to_flight : Option Airport
  max_stops : Option Int
  airlines : List String
  departure_earliest_hour : Option Int
  departure_latest_hour : Option Int
  arrival_earliest_hour : Option Int
  arrival_latest_hour : Option Int
  selected_flight : Option SelectedFlightData
  deriving DecidableEq, Repr

/-- Wire `Info` message: leg sub-messages, seat enum, repeated passenger
enum ints, trip enum. -/
structure Info where
  data : List WireFlightData
  seat : Int
  passengers : List Int
  trip : Int
  deriving DecidableEq, Repr

/-- Builder `build_flight_info` (`src/protobuf.rs:63`): translate each domain leg
into a wire leg (wrapping airports, splitting each `TimeWindow` into two
optional hour fields, no selected flight), expand the passengers, and
convert the enums to their wire integers.  The Rust function's `Result` is
always `Ok`, so the embedding is total. -/
def build_flight_info (flight_data : List FlightData) (trip_type : TripType)
    (passengers : Passengers) (seat_class : SeatClass) : Info :=
  { data := flight_data.map (fun flight =>
      { date := flight.date
        from_flight := some { airport := flight.from_airport }
        to_flight := some { airport := flight.to_airport }
        max_stops := flight.max_stops
        airlines := flight.airlines.getD []
        departure_earliest_hour := flight.departure_time.map (·.earliest_hour)
        departure_latest_hour := flight.departure_time.map (·.latest_hour)
        arrival_earliest_hour := flight.arrival_time.map (·.earliest_hour)
        arrival_latest_hour := flight.arrival_time.map (·.latest_hour)
        selected_flight := none })
    seat := seatToInt seat_class
    passengers := (passengersToVec passengers).map Passenger.toInt
    trip := tripToInt trip_type }

/-! ### Wire serialization

Modelled from the spec: the schema file `flights.proto` and the generated
serializer are not part of the sources, so byte-level serialization is
modelled here for the round-trip property of spec §8 — a varint-based
encoding in which every field of the wire message (spec §3) appears in
schema order, optionals carry a presence byte, and repeated fields a count.
Bytes are `Nat` values below 256. -/

/-- Little-endian base-128 varint of a `Nat`; every byte but the last has
its high bit set. -/
def encNat (n : Nat) : List Nat :=
  if h : n < 128 then [n] else (n % 128 + 128) :: encNat (n / 128)
  decreasing_by exact Nat.div_lt_self (Nat.lt_of_lt_of_le (by omega) (Nat.le_of_not_lt h)) (by omega)

/-- Decode a varint from the front of a byte stream. -/
def decNat : List Nat → Option (Nat × List Nat)
  | [] => none
  | b :: rest =>
    if b < 128 then some (b, rest)
    else (decNat rest).map (fun p => (b - 128 + 128 * p.1, p.2))

/-- Zigzag mapping of an `Int` onto a `Nat`. -/
def zig (i : Int) : Nat :=
  if 0 ≤ i then 2 * i.toNat else 2 * (-i).toNat - 1

/-- Inverse of the zigzag mapping. -/
def unzig (n : Nat) : Int :=
  if n % 2 = 0 then ((n / 2 : Nat) : Int) else -(((n / 2 : Nat) : Int) + 1)

/-- Encode an `Int` as the varint of its zigzag image. -/
def encInt (i : Int) : List Nat := encNat (zig i)

/-- Decode an `Int`. -/
def decInt (bs : List Nat) : Option (Int × List Nat) :=
  (decNat bs).map (fun p => (unzig p.1, p.2))

/-- Encode a character as the varint of its code point. -/
def encChar (c : Char) : List Nat := encNat c.toNat

/-- Decode a character. -/
def decChar (bs : List Nat) : Option (Char × List Nat) :=
  (decNat bs).map (fun p => (Char.ofNat p.1, p.2))

/-- Decode exactly `n` consecutive values with `dec`. -/
def decCount (dec : List Nat → Option (α × List Nat)) :
    Nat → List Nat → Option (List α × List Nat)
  | 0, bs => some ([], bs)
  | n + 1, bs =>
    (dec bs).bind (fun p =>
      (decCount dec n p.2).map (fun q => (p.1 :: q.1, q.2)))

/-- Encode a list as a varint count followed by the encoded elements. -/
def encList (enc : α → List Nat) (xs : List α) : List Nat :=
  encNat xs.length ++ (xs.map enc).flatten

/-- Decode a counted list. -/
def decList (dec : List Nat → Option (α × List Nat)) (bs : List Nat) :
    Option (List α × List Nat) :=
  (decNat bs).bind (fun p => decCount dec p.1 p.2)

/-- Encode a string as the counted list of its characters. -/
def encStr (s : String) : List Nat := encList encChar s.data

/-- Decode a string. -/
def decStr (bs : List Nat) : Option (String × List Nat) :=
  (decList decChar bs).map (fun p => (String.mk p.1, p.2))

/-- Encode an optional value behind a presence byte. -/
def encOpt (enc : α → List Nat) : Option α → List Nat
  | none => [0]
  | some x => 1 :: enc x

/-- Decode an optional value. -/
def decOpt (dec : List Nat → Option (α × List Nat)) :
    List Nat → Option (Option α × List Nat)
  | 0 :: rest => some (none, rest)
  | 1 :: rest => (dec rest).map (fun p => (some p.1, p.2))
  | _ => none

/-- Encode the one-field `Airport` sub-message. -/
def encAirport (a : Airport) : List Nat := encStr a.airport

/-- Decode an `Airport`. -/
def decAirport (bs : List Nat) : Option (Airport × List Nat) :=
  (decStr bs).map (fun p => ({ airport := p.1 }, p.2))

/-- Encode a `SelectedFlightData` sub-message. -/
def encSelected (f : SelectedFlightData) : List Nat :=
  encStr f.from_airport ++ encStr f.departure_date ++ encStr f.to_airport
    ++ encStr f.airline_code ++ encStr f.flight_number

/-- Decode a `SelectedFlightData`. -/
def decSelected (bs : List Nat) : Option (SelectedFlightData × List Nat) :=
  (decStr bs).bind (fun p₁ =>
    (decStr p₁.2).bind (fun p₂ =>
      (decStr p₂.2).bind (fun p₃ =>
        (decStr p₃.2).bind (fun p₄ =>
          (decStr p₄.2).map (fun p₅ =>
            ({ from_airport := p₁.1, departure_date := p₂.1,
               to_airport := p₃.1, airline_code := p₄.1,
               flight_number := p₅.1 }, p₅.2))))))

/-- Encode one wire leg, fields in schema order (spec §3). -/
def encLeg (f : WireFlightData) : List Nat :=
  encStr f.date
    ++ encOpt encAirport f.from_flight
    ++ encOpt encAirport f.to_flight
    ++ encOpt encInt f.max_stops
    ++ encList encStr f.airlines
    ++ encOpt encInt f.departure_earliest_hour
    ++ encOpt encInt f.departure_latest_hour
    ++ encOpt encInt f.arrival_earliest_hour
    ++ encOpt encInt f.arrival_latest_hour
    ++ encOpt encSelected f.selected_flight

/-- Decode one wire leg. -/
def decLeg (bs : List Nat) : Option (WireFlightData × List Nat) :=
  (decStr bs).bind (fun p₁ =>
    (decOpt decAirport p₁.2).bind (fun p₂ =>
      (decOpt decAirport p₂.2).bind (fun p₃ =>
        (decOpt decInt p₃.2).bind (fun p₄ =>
          (decList decStr p₄.2).bind (fun p₅ =>
            (decOpt decInt p₅.2).bind (fun p₆ =>
              (decOpt decInt p₆.2).bind (fun p₇ =>
                (decOpt decInt p₇.2).bind (fun p₈ =>
                  (decOpt decInt p₈.2).bind (fun p₉ =>
                    (decOpt decSelected p₉.2).map (fun p₁₀ =>
                      ({ date := p₁.1, from_flight := p₂.1, to_flight := p₃.1,
                         max_stops := p₄.1, airlines := p₅.1,
                         departure_earliest_hour := p₆.1,
                         departure_latest_hour := p₇.1,
                         arrival_earliest_hour := p₈.1,
                         arrival_latest_hour := p₉.1,
                         selected_flight := p₁₀.1 }, p₁₀.2)))))))))))

/-- Serialize the whole `Info` message: legs, then seat, then the passenger
sequence, then trip (spec §3 order). -/
def encInfo (i : Info) : List Nat :=
  encList encLeg i.data ++ encInt i.seat ++ encList encInt i.passengers
    ++ encInt i.trip

/-- Decode an `Info` message from the front of a byte stream. -/
def decInfo (bs : List Nat) : Option (Info × List Nat) :=
  (decList decLeg bs).bind (fun p₁ =>
    (decInt p₁.2).bind (fun p₂ =>
      (decList decInt p₂.2).bind (fun p₃ =>
        (decInt p₃.2).map (fun p₄ =>
          ({ data := p₁.1, seat := p₂.1, passengers := p₃.1,
             trip := p₄.1 }, p₄.2)))))

/-- The URL-safe base64 alphabet (`base64::engine::general_purpose::URL_SAFE`,
used by `encode_to_base64` in `src/protobuf.rs:171`). -/
def b64Char (k : Nat) : Char :=
  (("ABCDEFGHIJKLMNOPQRSTUVWXYZabcdefghijklmnopqrstuvwxyz0123456789-_").data.getD k 'A')

/-- Padded base64 of a byte list (URL-safe alphabet). -/
def b64Encode : List Nat → List Char
  | [] => []
  | [a] => [b64Char (a / 4), b64Char (a % 4 * 16), '=', '=']
  | [a, b] => [b64Char (a / 4), b64Char (a % 4 * 16 + b / 16), b64Char (b % 16 * 4), '=']
  | a :: b :: c :: rest =>
    b64Char (a / 4) :: b64Char (a % 4 * 16 + b / 16)
      :: b64Char (b % 16 * 4 + c / 64) :: b64Char (c % 64) :: b64Encode rest

/-- Encoder `encode_to_base64` (`src/protobuf.rs:171`): serialize the message and
base64-encode the bytes with the URL-safe alphabet. -/
def encode_to_base64 (info : Info) : String :=
  String.mk (b64Encode (encInfo info))

/-! ### Response decoder (`src/client.rs`)

The scraper library is external; the decoder is embedded from the point
where the compiled selectors have produced their matches.  A `RawItem`
carries, for one `ul.Rk10dc li` flight entry, the match lists each selector
yields inside it (texts already collected per element, attributes as
options), and a document is the list of flight-group sections, each a list
of entries. -/

/-- One element matched by the layover selector: its optional `aria-label`
attribute and the collected texts of its nested airport-code spans. -/
structure LayoverElem where
  ariaLabel : Option String
  airportTexts : List String
  deriving DecidableEq, Repr

/-- The selector matches inside one flight entry. -/
structure RawItem where
  nameTexts : List String
  timeTexts : List String
  durationTexts : List String
  stopsTexts : List String
  priceTexts : List String
  infoUrls : List (Option String)
  airportCodeTexts : List String
  summaryLabels : List (Option String)
  layoverElems : List LayoverElem
  deriving DecidableEq, Repr

/-- A parsed per-leg record (`FlightLeg`): airline code and flight number. -/
structure FlightLeg where
  airline_code : String
  flight_number : String
  deriving DecidableEq, Repr

/-- Struct `FlightPrice` (`src/lib.rs:163`). -/
structure FlightPrice where
  amount : Int
  currency : String
  deriving DecidableEq, Repr

/-- The flight record as the decoder constructs it
(`src/client.rs:200-214`) and as the spec's output schema lists it. -/
structure Flight where
  is_best : Bool
  name : String
  departure : String
  arrival : String
  duration : String
  stops : Int
  price : FlightPrice
  flight_legs : Option (List FlightLeg)
  origin_airport : Option String
  destination_airport : Option String
  flight_summary : Option String
  layovers : Option (List String)
  layover_description : Option String
  deriving DecidableEq, Repr

/-- Rust `replace(',', "")`: strip every comma (`src/client.rs:178`). -/
def stripCommas (s : String) : String :=
  String.mk (s.data.filter (fun c => c ≠ ','))

/-- Does `pat` occur at the very front of `l`? -/
def begWith : List Char → List Char → Bool
  | [], _ => true
  | _ :: _, [] => false
  | p :: ps, c :: cs => p = c && begWith ps cs

/-- Does `pat` occur anywhere in `hay` (Rust `str::contains`)? -/
def hasSub (pat : List Char) : List Char → Bool
  | [] => pat.isEmpty
  | c :: rest => begWith pat (c :: rest) || hasSub pat rest

/-- Rust `str::to_lowercase` on the character list. -/
def lowerChars (s : String) : List Char := s.data.map Char.toLower

/-- Leftmost match of the regex `([^\d]+)(\d+)`: the first non-digit run
that is followed by a digit, paired with that maximal digit run.  A match
can only start at a non-digit, so digits are skipped; if no digit remains
after a candidate start there is no match at all. -/
def priceMatch : List Char → Option (List Char × List Char)
  | [] => none
  | c :: rest =>
    if c.isDigit then priceMatch rest
    else
      match rest.dropWhile (fun x => ¬ x.isDigit) with
      | [] => none
      | d :: ds =>
        some (c :: rest.takeWhile (fun x => ¬ x.isDigit),
              d :: ds.takeWhile Char.isDigit)

/-- Parser `parse_price` (`src/client.rs:239`): split the text by the regex
`([^\d]+)(\d+)` into a currency-symbol run (trimmed; group always present
when the regex matches) and a digit run parsed as `i32` (0 on failure);
with no match, keep only the numeric characters (0 on failure) and use the
`"$"` default currency. -/
def parse_price (price_text : String) : FlightPrice :=
  match priceMatch price_text.data with
  | some (g₁, g₂) =>
    { amount := (parseI32 (String.mk g₂)).getD 0,
      currency := trimS (String.mk g₁) }
  | none =>
    { amount := (parseI32 (String.mk (price_text.data.filter Char.isDigit))).getD 0,
      currency := "$" }

/-- The stops computation of the extraction loop (`src/client.rs:164`):
`"Nonstop"` is 0, the `"Unknown"` placeholder is −1, anything else parses
its first whitespace-separated token as an `i32`, −1 on failure. -/
def parse_stops (stops_text : String) : Int :=
  if stops_text = "Nonstop" then 0
  else if stops_text = "Unknown" then -1
  else
    match (wsTokens stops_text).head? with
    | none => -1
    | some tok => (parseI32 tok).getD (-1)

/-- One leg of an `itinerary=` value (`src/client.rs:291-300`): split on
`-`; at least 4 fields give a record of field 3 (airline code) and field 4
(flight number); fewer give nothing. -/
def legOfStr (leg : String) : Option FlightLeg :=
  let parts := splitChar '-' leg
  if parts.length ≥ 4 then
    some { airline_code := parts.getD 2 "", flight_number := parts.getD 3 "" }
  else none

/-- Leftmost match of the regex `itinerary=([^&]+)` (`src/client.rs:283`):
the first occurrence of the literal `itinerary=` followed by at least one
non-`&` character, yielding the maximal non-`&` run. -/
def itinValue : List Char → Option (List Char)
  | [] => none
  | c :: rest =>
    if begWith ("itinerary=".data) (c :: rest) then
      match ((c :: rest).drop ("itinerary=".data).length).takeWhile (fun x => x ≠ '&') with
      | [] => itinValue rest
      | v :: vs => some (v :: vs)
    else itinValue rest

/-- Parser `parse_flight_info_from_url` (`src/client.rs:278`): extract the
`itinerary=` value, split on `,`, turn each leg with ≥ 4 hyphen-separated
fields into a `FlightLeg`, and return the list only if non-empty. -/
def parse_flight_info_from_url (url : String) : Option (List FlightLeg) :=
  match itinValue url.data with
  | none => none
  | some value =>
    let flight_legs :=
      ((splitP (fun c => c = ',') value).map String.mk).filterMap legOfStr
    if flight_legs.isEmpty then none else some flight_legs

/-- Extractor `extract_flight_info` (`src/client.rs:267`): the first element matched
by the flight-info selector, if it carries the deep-link attribute, is
parsed for legs; otherwise the result is `none`. -/
def extract_flight_info (item : RawItem) : Option (List FlightLeg) :=
  match item.infoUrls.head? with
  | some (some url) => parse_flight_info_from_url url
  | _ => none

/-- Extractor `extract_airport_codes` (`src/client.rs:311`): trim and drop empty
texts; two or more give (origin, destination), exactly one gives only the
origin, none gives neither. -/
def extract_airport_codes (item : RawItem) : Option String × Option String :=
  let airport_codes :=
    (item.airportCodeTexts.map trimS).filter (fun s => ¬ s.isEmpty)
  if airport_codes.length ≥ 2 then
    (some (airport_codes.getD 0 ""), some (airport_codes.getD 1 ""))
  else if airport_codes.length = 1 then
    (some (airport_codes.getD 0 ""), none)
  else (none, none)

/-- Extractor `extract_layover_info` (`src/client.rs:332`): the first layover-selector
element whose `aria-label` contains (case-insensitively) `layover` supplies
the description (the non-empty label) and the airport list (its non-empty
trimmed nested texts, `none` when there are none); no such element is the
valid no-layover outcome. -/
def extract_layover_info : List LayoverElem → Option (List String) × Option String
  | [] => (none, none)
  | e :: rest =>
    if hasSub ("layover".data) (lowerChars (e.ariaLabel.getD "")) then
      let airport_codes := (e.airportTexts.map trimS).filter (fun s => ¬ s.isEmpty)
      ((if airport_codes.isEmpty then none else some airport_codes),
       e.ariaLabel.bind (fun s => if s.isEmpty then none else some s))
    else extract_layover_info rest

/-- The body of the extraction loop (`src/client.rs:123-215`): build one
`Flight` from one entry, substituting the documented placeholder for every
missing field. -/
def parse_flight_item (is_best : Bool) (item : RawItem) : Flight :=
  let name := (item.nameTexts.head?.map trimS).getD "Unknown"
  let times := item.timeTexts.map trimS
  let departure := times.head?.getD "Unknown"
  let arrival := (times.drop 1).head?.getD "Unknown"
  let duration := item.durationTexts.head?.getD "Unknown"
  let stops_text := item.stopsTexts.head?.getD "Unknown"
  let price_text := (item.priceTexts.head?.map stripCommas).getD "$0"
  let legs := extract_flight_info item
  let codes := extract_airport_codes item
  let summary := item.summaryLabels.head?.map (fun l => l.getD "")
  let layover := extract_layover_info item.layoverElems
  { is_best := is_best
    name := name
    departure := normWs departure
    arrival := normWs arrival
    duration := duration
    stops := parse_stops stops_text
    price := parse_price price_text
    flight_legs := legs
    origin_airport := codes.1
    destination_airport := codes.2
    flight_summary := summary
    layovers := layover.1
    layover_description := layover.2 }

/-- One flight-group section (`src/client.rs:111-121`): the first section
(index 0) keeps all entries and marks them best; every later section drops
its last entry (`take (len - 1)`, saturating) and marks the rest not best. -/
def processGroup (i : Nat) (g : List RawItem) : List Flight :=
  let items := if i = 0 then g else g.take (g.length - 1)
  items.map (parse_flight_item (i = 0))

/-- The full extraction list accumulated over all sections. -/
def extractedFlights (doc : List (List RawItem)) : List Flight :=
  (doc.enum.map (fun p => processGroup p.1 p.2)).flatten

/-- Extractor `extract_flights` (`src/client.rs:108-223`): the accumulated list, or
the one hard parse error when it is empty. -/
def extract_flights (doc : List (List RawItem)) :
    Except FlightError (List Flight) :=
  let flights := extractedFlights doc
  if flights.isEmpty then
    .error (.parseError "No flights found in response")
  else .ok flights

/-! ### Round-trip lemmas for the wire serialization -/

theorem decNat_encNat (n : Nat) : ∀ r : List Nat, decNat (encNat n ++ r) = some (n, r) := by
  induction n using Nat.strong_induction_on with
  | _ n ih =>
    intro r
    rw [encNat]
    split
    · next h => simp [decNat, h]
    · next h =>
      have hn : 128 ≤ n := Nat.le_of_not_lt h
      have hlt : n / 128 < n := Nat.div_lt_self (by omega) (by omega)
      simp only [List.cons_append, decNat, if_neg (by omega : ¬ n % 128 + 128 < 128)]
      rw [show (encNat (n / 128)).append r = encNat (n / 128) ++ r from rfl, ih _ hlt r]
      simp only [Option.map_some']
      have : n % 128 + 128 - 128 + 128 * (n / 128) = n := by omega
      rw [this]

theorem unzig_zig (i : Int) : unzig (zig i) = i := by
  unfold zig unzig
  split
  · next h =>
    rw [if_pos (by omega)]
    omega
  · next h =>
    have h1 : 1 ≤ (-i).toNat := by omega
    rw [if_neg (by omega)]
    omega

theorem decInt_encInt (i : Int) (r : List Nat) : decInt (encInt i ++ r) = some (i, r) := by
  simp [decInt, encInt, decNat_encNat, unzig_zig]

theorem decChar_encChar (c : Char) (r : List Nat) : decChar (encChar c ++ r) = some (c, r) := by
  simp [decChar, encChar, decNat_encNat, Char.ofNat_toNat]

theorem decCount_enc {α : Type} {dec : List Nat → Option (α × List Nat)}
    {enc : α → List Nat} (h : ∀ x r, dec (enc x ++ r) = some (x, r)) :
    ∀ (xs : List α) (r : List Nat),
      decCount dec xs.length ((xs.map enc).flatten ++ r) = some (xs, r) := by
  intro xs
  induction xs with
  | nil => intro r; simp [decCount]
  | cons x xs ih =>
    intro r
    simp only [List.map_cons, List.flatten_cons, List.length_cons, decCount,
      List.append_assoc, h, Option.some_bind, ih, Option.map_some']

theorem decList_encList {α : Type} {dec : List Nat → Option (α × List Nat)}
    {enc : α → List Nat} (h : ∀ x r, dec (enc x ++ r) = some (x, r))
    (xs : List α) (r : List Nat) :
    decList dec (encList enc xs ++ r) = some (xs, r) := by
  simp [decList, encList, List.append_assoc, decNat_encNat, decCount_enc h]

theorem decStr_encStr (s : String) (r : List Nat) : decStr (encStr s ++ r) = some (s, r) := by
  obtain ⟨cs⟩ := s
  simp [decStr, encStr, decList_encList decChar_encChar]

theorem decOpt_encOpt {α : Type} {dec : List Nat → Option (α × List Nat)}
    {enc : α → List Nat} (h : ∀ x r, dec (enc x ++ r) = some (x, r))
    (o : Option α) (r : List Nat) :
    decOpt dec (encOpt enc o ++ r) = some (o, r) := by
  cases o with
  | none => simp [encOpt, decOpt]
  | some x => simp [encOpt, decOpt, h]

theorem decAirport_encAirport (a : Airport) (r : List Nat) :
    decAirport (encAirport a ++ r) = some (a, r) := by
  obtain ⟨s⟩ := a
  simp [decAirport, encAirport, decStr_encStr]

theorem decSelected_encSelected (f : SelectedFlightData) (r : List Nat) :
    decSelected (encSelected f ++ r) = some (f, r) := by
  obtain ⟨a, b, c, d, e⟩ := f
  simp [decSelected, encSelected, List.append_assoc, decStr_encStr]

theorem decLeg_encLeg (f : WireFlightData) (r : List Nat) :
    decLeg (encLeg f ++ r) = some (f, r) := by
  obtain ⟨d, ff, tf, ms, al, de, dl, ae, al2, sf⟩ := f
  simp [decLeg, encLeg, List.append_assoc, decStr_encStr,
    decOpt_encOpt decAirport_encAirport, decOpt_encOpt decInt_encInt,
    decList_encList decStr_encStr, decOpt_encOpt decSelected_encSelected]

theorem decInfo_encInfo (i : Info) (r : List Nat) :
    decInfo (encInfo i ++ r) = some (i, r) := by
  obtain ⟨d, s, p, t⟩ := i
  simp [decInfo, encInfo, List.append_assoc, decList_encList decLeg_encLeg,
    decInt_encInt, decList_encList decInt_encInt]

/-- Does this result carry the time-format error variant? -/
def isTimeErr {α : Type} : Except FlightError α → Bool
  | .error (.timeParseError _) => true
  | _ => false

/-! ### Claim theorems -/

/-- C9: for every flight search request, building the wire message with
`build_flight_info`, serializing it to bytes, then decoding those bytes
reproduces the wire message — in particular the leg count, the seat enum
value, the trip enum value, and the passenger-enum sequence — unchanged. -/
theorem c9_encode_decode_roundtrip (flight_data : List FlightData)
    (trip_type : TripType) (passengers : Passengers) (seat_class : SeatClass) :
    decInfo (encInfo (build_flight_info flight_data trip_type passengers seat_class)) =
      some (build_flight_info flight_data trip_type passengers seat_class, []) ∧
    (build_flight_info flight_data trip_type passengers seat_class).data.length =
      flight_data.length ∧
    (build_flight_info flight_data trip_type passengers seat_class).seat =
      seatToInt seat_class ∧
    (build_flight_info flight_data trip_type passengers seat_class).trip =
      tripToInt trip_type ∧
    (build_flight_info flight_data trip_type passengers seat_class).passengers =
      (passengersToVec passengers).map Passenger.toInt := by
  refine ⟨?_, ?_, rfl, rfl, rfl⟩
  · have := decInfo_encInfo
      (build_flight_info flight_data trip_type passengers seat_class) []
    simpa using this
  · simp [build_flight_info]

/-- C5: `TimeWindow::new` fails with a time-format error whenever either
hour lies outside [0,23], and succeeds — returning exactly the given pair,
with no ordering requirement between the two — whenever both lie inside. -/
theorem c5_time_window_new :
    (∀ e l : Int, (e < 0 ∨ 23 < e ∨ l < 0 ∨ 23 < l) →
      isTimeErr (TimeWindow.new e l) = true) ∧
    (∀ e l : Int, 0 ≤ e → e ≤ 23 → 0 ≤ l → l ≤ 23 →
      TimeWindow.new e l = .ok { earliest_hour := e, latest_hour := l }) := by
  constructor
  · intro e l h
    unfold TimeWindow.new
    split
    · rfl
    · next h1 =>
      rw [if_pos (by omega)]
      rfl
  · intro e l h1 h2 h3 h4
    unfold TimeWindow.new
    rw [if_neg (by omega), if_neg (by omega)]

/-- C5 witness: a concrete rejection on either side and a concrete
success with `earliest > latest`. -/
theorem c5_time_window_new_witness :
    isTimeErr (TimeWindow.new 24 0) = true ∧
    isTimeErr (TimeWindow.new 0 (-1)) = true ∧
    TimeWindow.new 17 9 = .ok { earliest_hour := 17, latest_hour := 9 } :=
  ⟨c5_time_window_new.1 24 0 (by omega),
   c5_time_window_new.1 0 (-1) (by omega),
   c5_time_window_new.2 17 9 (by omega) (by omega) (by omega) (by omega)⟩

/-- C6: `TimeWindow::from_range_str` splits on the hyphen and fails with a
time-format error unless that yields exactly two parts; with exactly two
parts it parses each part's hour (the text before `:`, minutes discarded)
and delegates to the validated constructor; `"09:00-17:00"` gives
earliest 9 and latest 17, and `"09:59-17:59"` also gives 9 and 17 (minutes
are discarded, not rounded). -/
theorem c6_from_range_str :
    (∀ s : String, (splitChar '-' s).length ≠ 2 →
      isTimeErr (TimeWindow.from_range_str s) = true) ∧
    (∀ s p₁ p₂ : String, splitChar '-' s = [p₁, p₂] →
      TimeWindow.from_range_str s =
        match TimeWindow.parse_hour p₁ with
        | .error e => .error e
        | .ok earliest =>
          match TimeWindow.parse_hour p₂ with
          | .error e => .error e
          | .ok latest => TimeWindow.new earliest latest) ∧
    TimeWindow.from_range_str "09:00-17:00" =
      .ok { earliest_hour := 9, latest_hour := 17 } ∧
    TimeWindow.from_range_str "09:59-17:59" =
      .ok { earliest_hour := 9, latest_hour := 17 } := by
  refine ⟨?_, ?_, by decide, by decide⟩
  · intro s h
    unfold TimeWindow.from_range_str
    rw [if_pos h]
    rfl
  · intro s p₁ p₂ h
    unfold TimeWindow.from_range_str
    rw [h]
    simp only [List.length_cons, List.length_nil, if_neg (by omega : ¬ (2 : Nat) ≠ 2)]
    cases hp : TimeWindow.parse_hour p₁ <;> cases hq : TimeWindow.parse_hour p₂ <;>
      simp [hp, hq, Bind.bind, Except.bind, List.headD, List.drop]

/-- C6 witness: the branch facts at concrete inputs, all obtained from the
theorem itself. -/
theorem c6_from_range_str_witness :
    isTimeErr (TimeWindow.from_range_str "09:00") = true ∧
    TimeWindow.from_range_str "09:00-17:00" =
      match TimeWindow.parse_hour "09:00" with
      | .error e => .error e
      | .ok earliest =>
        match TimeWindow.parse_hour "17:00" with
        | .error e => .error e
        | .ok latest => TimeWindow.new earliest latest :=
  ⟨c6_from_range_str.1 "09:00" (by decide),
   c6_from_range_str.2.1 "09:00-17:00" "09:00" "17:00" (by decide)⟩

theorem getD_replicate {α : Type} (x d : α) :
    ∀ (n k : Nat), k < n → (List.replicate n x).getD k d = x := by
  intro n
  induction n with
  | zero => intro k h; omega
  | succ n ih =>
    intro k h
    cases k with
    | zero => rfl
    | succ k => exact ih k (by omega)

/-- C2: for all passenger counts ≥ 0, the expanded enum sequence has
length `a+c+i+o`, and position `k` holds the adult value for `k < a`, the
child value for `a ≤ k < a+c`, the infant-in-seat value for
`a+c ≤ k < a+c+i` and the infant-on-lap value beyond — all adults, then
all children, then all infants-in-seat, then all infants-on-lap, never
permuted. -/
theorem c2_passenger_expansion_order (a c i o : Int)
    (ha : 0 ≤ a) (hc : 0 ≤ c) (hi : 0 ≤ i) (ho : 0 ≤ o) :
    ((passengersToVec ⟨a, c, i, o⟩).length : Int) = a + c + i + o ∧
    ∀ k : Nat, k < (passengersToVec ⟨a, c, i, o⟩).length →
      (passengersToVec ⟨a, c, i, o⟩).getD k .adult =
        (if (k : Int) < a then .adult
         else if (k : Int) < a + c then .child
         else if (k : Int) < a + c + i then .infantInSeat
         else .infantOnLap) := by
  constructor
  · simp only [passengersToVec, List.length_append, List.length_replicate]
    omega
  · intro k hk
    simp only [passengersToVec, List.length_append, List.length_replicate] at hk
    simp only [passengersToVec, List.append_assoc]
    by_cases h1 : k < a.toNat
    · rw [List.getD_append _ _ _ _ (by simp only [List.length_replicate]; omega),
        getD_replicate _ _ _ _ h1, if_pos (by omega)]
    · rw [List.getD_append_right _ _ _ _ (by simp only [List.length_replicate]; omega)]
      simp only [List.length_replicate]
      by_cases h2 : k - a.toNat < c.toNat
      · rw [List.getD_append _ _ _ _ (by simp only [List.length_replicate]; omega),
          getD_replicate _ _ _ _ h2, if_neg (by omega), if_pos (by omega)]
      · rw [List.getD_append_right _ _ _ _ (by simp only [List.length_replicate]; omega)]
        simp only [List.length_replicate]
        by_cases h3 : k - a.toNat - c.toNat < i.toNat
        · rw [List.getD_append _ _ _ _ (by simp only [List.length_replicate]; omega),
            getD_replicate _ _ _ _ h3, if_neg (by omega), if_neg (by omega),
            if_pos (by omega)]
        · rw [List.getD_append_right _ _ _ _ (by simp only [List.length_replicate]; omega)]
          simp only [List.length_replicate]
          rw [getD_replicate _ _ _ _ (by omega), if_neg (by omega), if_neg (by omega),
            if_neg (by omega)]

/-- C2 witness: the expansion of (2,1,1,1) has length 5 and holds the
infant-in-seat value at position 3. -/
theorem c2_passenger_expansion_order_witness :
    ((passengersToVec ⟨2, 1, 1, 1⟩).length : Int) = 2 + 1 + 1 + 1 ∧
    (passengersToVec ⟨2, 1, 1, 1⟩).getD 3 .adult =
      (if ((3 : Nat) : Int) < 2 then .adult
       else if ((3 : Nat) : Int) < 2 + 1 then .child
       else if ((3 : Nat) : Int) < 2 + 1 + 1 then .infantInSeat
       else .infantOnLap) :=
  ⟨(c2_passenger_expansion_order 2 1 1 1 (by omega) (by omega) (by omega) (by omega)).1,
   (c2_passenger_expansion_order 2 1 1 1 (by omega) (by omega) (by omega)
      (by omega)).2 3 (by decide)⟩

/-- C10: a negative category count never makes the expansion fail; it
contributes zero entries for that category, so the length is the sum of
the clamped (non-negative) counts. -/
theorem c10_negative_count_is_zero (a c i o : Int) :
    ((passengersToVec ⟨a, c, i, o⟩).length : Int) =
      max a 0 + max c 0 + max i 0 + max o 0 ∧
    (a < 0 → (passengersToVec ⟨a, c, i, o⟩).count .adult = 0) ∧
    (c < 0 → (passengersToVec ⟨a, c, i, o⟩).count .child = 0) ∧
    (i < 0 → (passengersToVec ⟨a, c, i, o⟩).count .infantInSeat = 0) ∧
    (o < 0 → (passengersToVec ⟨a, c, i, o⟩).count .infantOnLap = 0) := by
  refine ⟨?_, ?_, ?_, ?_, ?_⟩
  · simp only [passengersToVec, List.length_append, List.length_replicate]
    omega
  · intro hneg
    have h0 : a.toNat = 0 := by omega
    simp [passengersToVec, List.count_append, List.count_replicate, h0]
  · intro hneg
    have h0 : c.toNat = 0 := by omega
    simp [passengersToVec, List.count_append, List.count_replicate, h0]
  · intro hneg
    have h0 : i.toNat = 0 := by omega
    simp [passengersToVec, List.count_append, List.count_replicate, h0]
  · intro hneg
    have h0 : o.toNat = 0 := by omega
    simp [passengersToVec, List.count_append, List.count_replicate, h0]

/-- C10 witness: with every count negative the expansion is empty and
contributes no entry of any category. -/
theorem c10_negative_count_is_zero_witness :
    ((passengersToVec ⟨-1, -2, -3, -4⟩).length : Int) =
      max (-1) 0 + max (-2) 0 + max (-3) 0 + max (-4) 0 ∧
    (passengersToVec ⟨-1, -2, -3, -4⟩).count .adult = 0 ∧
    (passengersToVec ⟨-1, -2, -3, -4⟩).count .child = 0 ∧
    (passengersToVec ⟨-1, -2, -3, -4⟩).count .infantInSeat = 0 ∧
    (passengersToVec ⟨-1, -2, -3, -4⟩).count .infantOnLap = 0 :=
  ⟨(c10_negative_count_is_zero (-1) (-2) (-3) (-4)).1,
   (c10_negative_count_is_zero (-1) (-2) (-3) (-4)).2.1 (by omega),
   (c10_negative_count_is_zero (-1) (-2) (-3) (-4)).2.2.1 (by omega),
   (c10_negative_count_is_zero (-1) (-2) (-3) (-4)).2.2.2.1 (by omega),
   (c10_negative_count_is_zero (-1) (-2) (-3) (-4)).2.2.2.2 (by omega)⟩

theorem processGroup_enumFrom_succ (rest : List (List RawItem)) :
    ∀ n : Nat, (rest.enumFrom (n + 1)).map (fun p => processGroup p.1 p.2) =
      rest.map (fun g => (g.take (g.length - 1)).map (parse_flight_item false)) := by
  induction rest with
  | nil => intro n; rfl
  | cons g gs ih =>
    intro n
    simp only [List.enumFrom, List.map_cons]
    refine congrArg₂ _ ?_ (ih (n + 1))
    simp [processGroup]

/-- A raw flight entry none of whose selectors matched anything. -/
def emptyItem : RawItem :=
  { nameTexts := [], timeTexts := [], durationTexts := [], stopsTexts := [],
    priceTexts := [], infoUrls := [], airportCodeTexts := [],
    summaryLabels := [], layoverElems := [] }

/-- The fixture of spec §8: a best-flight group of 3 entries and a
more-flights group of 4 entries whose last is the placeholder row. -/
def c3Fixture : List (List RawItem) :=
  [[emptyItem, emptyItem, emptyItem],
   [emptyItem, emptyItem, emptyItem, emptyItem]]

/-- C3: the first flight-group section's entries are all marked best; every
subsequent section loses its last entry and the rest are marked not best;
on the 3-entry/4-entry fixture the decode succeeds with exactly 6 entities
of which exactly the first 3 are best. -/
theorem c3_group_rule :
    (∀ (g₀ : List RawItem) (rest : List (List RawItem)),
      extractedFlights (g₀ :: rest) =
        g₀.map (parse_flight_item true) ++
          (rest.map (fun g =>
            (g.take (g.length - 1)).map (parse_flight_item false))).flatten) ∧
    extract_flights c3Fixture = .ok (extractedFlights c3Fixture) ∧
    (extractedFlights c3Fixture).length = 6 ∧
    (extractedFlights c3Fixture).map (·.is_best) =
      [true, true, true, false, false, false] := by
  refine ⟨?_, by decide, by decide, by decide⟩
  intro g₀ rest
  simp only [extractedFlights, List.enum, List.enumFrom, List.map_cons,
    List.flatten_cons, processGroup_enumFrom_succ rest 0]
  simp [processGroup]

/-- C4: with the selectors constructed, the decode fails — with the one
parse error — exactly when extraction over all sections yields no flight
at all (in particular on a document with no flight-group sections), while
an entry none of whose fields could be extracted still yields a flight
with the documented placeholders. -/
theorem c4_error_iff_no_flights :
    (∀ doc : List (List RawItem),
      extract_flights doc = .error (.parseError "No flights found in response") ↔
        extractedFlights doc = []) ∧
    extract_flights ([] : List (List RawItem)) =
      .error (.parseError "No flights found in response") ∧
    (∀ b : Bool, parse_flight_item b emptyItem =
      { is_best := b, name := "Unknown", departure := "Unknown",
        arrival := "Unknown", duration := "Unknown", stops := -1,
        price := { amount := 0, currency := "$" }, flight_legs := none,
        origin_airport := none, destination_airport := none,
        flight_summary := none, layovers := none,
        layover_description := none }) := by
  refine ⟨?_, by decide, ?_⟩
  · intro doc
    unfold extract_flights
    constructor
    · intro h
      by_cases he : (extractedFlights doc).isEmpty
      · exact List.isEmpty_iff.mp he
      · rw [if_neg he] at h
        exact absurd h (by simp)
    · intro h
      rw [if_pos (by simp [h])]
  · intro b
    cases b <;> decide

/-- C4 witness: the empty document decodes to the parse error, via the
theorem's equivalence at the empty document. -/
theorem c4_error_iff_no_flights_witness :
    extract_flights ([] : List (List RawItem)) =
      .error (.parseError "No flights found in response") :=
  (c4_error_iff_no_flights.1 []).mpr rfl

theorem priceMatch_eq_none (cs : List Char) (h : ∀ c ∈ cs, c.isDigit = false) :
    priceMatch cs = none := by
  induction cs with
  | nil => rfl
  | cons c rest ih =>
    have hc : c.isDigit = false := h c (by simp)
    have hrest : rest.dropWhile (fun x => !x.isDigit) = [] := by
      rw [List.dropWhile_eq_nil_iff]
      intro x hx
      simp [h x (List.mem_cons_of_mem _ hx)]
    simp [priceMatch, hc, hrest]

/-- C7: price parsing (applied after comma stripping) splits a leading
non-digit currency run from the following digit run — `"$1,234"` gives
amount 1234 with currency `"$"`, `"€560"` gives 560 with `"€"` — while
text with no digit at all gives amount 0, and whenever the currency
pattern does not capture, the currency defaults to `"$"`. -/
theorem c7_price_parsing :
    (∀ s : String, (∀ ch ∈ s.data, ch.isDigit = false) →
      parse_price s = { amount := 0, currency := "$" }) ∧
    (∀ s : String, priceMatch s.data = none → (parse_price s).currency = "$") ∧
    parse_price (stripCommas "$1,234") = { amount := 1234, currency := "$" } ∧
    parse_price "€560" = { amount := 560, currency := "€" } := by
  refine ⟨?_, ?_, by decide, by decide⟩
  · intro s h
    have h1 := priceMatch_eq_none s.data h
    have h2 : s.data.filter Char.isDigit = [] := by
      rw [List.filter_eq_nil_iff]
      intro ch hc
      simp [h ch hc]
    simp only [parse_price, h1, h2]
    rfl
  · intro s h
    simp [parse_price, h]

/-- C7 witness: all-letter text parses to the zero-dollar placeholder, and
all-digit text (the regex cannot capture a symbol) defaults to `"$"`. -/
theorem c7_price_parsing_witness :
    parse_price "abc" = { amount := 0, currency := "$" } ∧
    (parse_price "560").currency = "$" :=
  ⟨c7_price_parsing.1 "abc" (by decide),
   c7_price_parsing.2.1 "560" (by decide)⟩

/-- C8: an itinerary deep-link URL yields one per-leg record — third
hyphen-separated field as airline code, fourth as flight number — for
every leg of the `itinerary=` value with at least 4 fields, and silently
drops any leg with fewer; the two deep links of spec §8 give exactly one
and exactly two legs. -/
theorem c8_itinerary_url_legs :
    (∀ (leg : String) (parts : List String), splitChar '-' leg = parts →
      (4 ≤ parts.length →
        legOfStr leg = some { airline_code := parts.getD 2 "",
                              flight_number := parts.getD 3 "" }) ∧
      (parts.length < 4 → legOfStr leg = none)) ∧
    parse_flight_info_from_url
        "https://www.travelimpactmodel.org/lookup/flight?itinerary=LAX-JFK-AA-274-20250815" =
      some [{ airline_code := "AA", flight_number := "274" }] ∧
    parse_flight_info_from_url
        "https://www.travelimpactmodel.org/lookup/flight?itinerary=LAX-ATL-F9-4316-20250815,ATL-JFK-F9-4818-20250815" =
      some [{ airline_code := "F9", flight_number := "4316" },
            { airline_code := "F9", flight_number := "4818" }] := by
  refine ⟨?_, by decide, by decide⟩
  intro leg parts h
  constructor
  · intro h4
    simp [legOfStr, h, h4]
  · intro h4
    simp [legOfStr, h]
    omega

/-- C8 witness: a 5-field leg gives its third and fourth fields, a 2-field
leg is dropped. -/
theorem c8_itinerary_url_legs_witness :
    legOfStr "LAX-JFK-AA-274-20250815" =
      some { airline_code := "AA", flight_number := "274" } ∧
    legOfStr "ATL-JFK" = none :=
  ⟨(c8_itinerary_url_legs.1 "LAX-JFK-AA-274-20250815"
      ["LAX", "JFK", "AA", "274", "20250815"] (by decide)).1 (by decide),
   (c8_itinerary_url_legs.1 "ATL-JFK" ["ATL", "JFK"] (by decide)).2 (by decide)⟩

/-- The fields of the `Flight` struct as declared in `src/lib.rs:146-159`. -/
def flightFieldsDeclared : List String :=
  ["is_best", "name", "departure", "arrival", "duration", "stops", "price",
   "airline_code", "flight_number", "origin_airport", "destination_airport"]

/-- The fields the decoder's `Flight` construction supplies
(`src/client.rs:200-214`). -/
def flightFieldsConstructed : List String :=
  ["is_best", "name", "departure", "arrival", "duration", "stops", "price",
   "flight_legs", "origin_airport", "destination_airport", "flight_summary",
   "layovers", "layover_description"]

/-- C1: the decoder populates the spec's optional detail fields — per-leg
records, origin/destination codes, layover list, layover description — on
every extracted entry, but the `Flight` struct declared in `src/lib.rs`
lacks `flight_legs`, `layovers` and `layover_description` (it still carries
a flat `airline_code`/`flight_number` pair instead), so the construction in
`src/client.rs` does not match the declared public type: the claim holds of
the decoder and the spec's output schema, and the declared struct is the
slip. -/
theorem c1_flight_detail_fields :
    (∀ (b : Bool) (item : RawItem),
      (parse_flight_item b item).flight_legs = extract_flight_info item ∧
      ((parse_flight_item b item).origin_airport,
        (parse_flight_item b item).destination_airport) =
          extract_airport_codes item ∧
      (parse_flight_item b item).layovers =
        (extract_layover_info item.layoverElems).1 ∧
      (parse_flight_item b item).layover_description =
        (extract_layover_info item.layoverElems).2) ∧
    ("flight_legs" ∈ flightFieldsConstructed ∧
      "flight_legs" ∉ flightFieldsDeclared) ∧
    ("layovers" ∈ flightFieldsConstructed ∧
      "layovers" ∉ flightFieldsDeclared) ∧
    ("layover_description" ∈ flightFieldsConstructed ∧
      "layover_description" ∉ flightFieldsDeclared) ∧
    ("origin_airport" ∈ flightFieldsConstructed ∧
      "origin_airport" ∈ flightFieldsDeclared) ∧
    ("destination_airport" ∈ flightFieldsConstructed ∧
      "destination_airport" ∈ flightFieldsDeclared) :=
  ⟨fun _ _ => ⟨rfl, rfl, rfl, rfl⟩, by decide⟩

end RustFlights
